import Mathlib

/-!
Shallow embedding of the MCP container lifecycle orchestrator
(src/sm3_agent/backend/containers/manager.py) and proofs about it.

The Python class MCPContainerManager is embedded as a pure state
transformer over an explicit ManagerState.  Calls into the Docker SDK
and the HTTP health probe are modelled by an explicit environment
(DockerEnv) supplying the outcome of every external call; each
operation additionally returns the list of external calls it issued
(List Event), so that claims about which runtime calls happen can be
stated.  Wall-clock time is abstracted: timestamps are an opaque Nat
parameter threaded through the operations, and the number of health
poll iterations admitted before the health timeout elapses is the
environment field healthPolls.
-/

set_option maxHeartbeats 1000000
set_option maxRecDepth 10000

namespace SM3

/-- Container lifecycle states (class ContainerState in manager.py). -/
inductive ContainerState where
  | not_found
  | starting
  | running
  | healthy
  | unhealthy
  | stopping
  | stopped
  | error
deriving DecidableEq, Repr

/-- Supported MCP server types (class MCPType in manager.py). -/
inductive MCPType where
  | grafana
  | alertmanager
  | genesys
deriving DecidableEq, Repr

/-- String value of an MCPType member (the Python enum value). -/
def MCPType.value : MCPType → String
  | .grafana => "grafana"
  | .alertmanager => "alertmanager"
  | .genesys => "genesys"

/-- Python MCPType(type_str): some member when type_str names one, none for ValueError. -/
def MCPType.ofString? (s : String) : Option MCPType :=
  if s = "grafana" then some .grafana
  else if s = "alertmanager" then some .alertmanager
  else if s = "genesys" then some .genesys
  else none

/-! Python dicts are embedded as association lists in insertion order,
with the operations an OrderedDict / dict supports.  Keys are kept
unique by construction of the operations. -/

/-- Dict lookup: d.get(k) / k in d. -/
def dictGet {κ α : Type} [DecidableEq κ] : List (κ × α) → κ → Option α
  | [], _ => none
  | (k', v) :: rest, k => if k' = k then some v else dictGet rest k

/-- Dict removal: d.pop(k, None), dropping the binding of k if present. -/
def dictPop {κ α : Type} [DecidableEq κ] : List (κ × α) → κ → List (κ × α)
  | [], _ => []
  | (k', v) :: rest, k => if k' = k then rest else (k', v) :: dictPop rest k

/-- Dict assignment d[k] = v: replace in place when k is present, append otherwise. -/
def dictSet {κ α : Type} [DecidableEq κ] : List (κ × α) → κ → α → List (κ × α)
  | [], k, v => [(k, v)]
  | (k', v') :: rest, k, v =>
    if k' = k then (k, v) :: rest else (k', v') :: dictSet rest k v

/-- Dict key list, in insertion order: list(d.keys()). -/
def dictKeys {κ α : Type} (l : List (κ × α)) : List κ :=
  l.map (·.1)

/-- Sanitized customer name used inside container names:
customer_name.lower().replace(" ", "-").replace("[", "").replace("]", "").
All four patterns are single ASCII characters, so the lowering, the
replacement and the two deletions are carried out character-wise. -/
def sanitizeName (s : String) : String :=
  String.mk ((((s.data.map Char.toLower).map (fun c => if c = ' ' then '-' else c)).filter
    (fun c => c ≠ '[')).filter (fun c => c ≠ ']'))

/-- Configuration for an MCP container (class ContainerConfig). -/
structure ContainerConfig where
  customer_name : String
  mcp_type : MCPType
  image : String
  environment : List (String × String)
  port : Nat
  internal_port : Nat
  health_endpoint : String := "/mcp"
deriving DecidableEq, Repr

/-- ContainerConfig.container_name property. -/
def ContainerConfig.container_name (c : ContainerConfig) : String :=
  "sm3-mcp-" ++ c.mcp_type.value ++ "-" ++ sanitizeName c.customer_name

/-- ContainerConfig.url property. -/
def ContainerConfig.url (c : ContainerConfig) : String :=
  if c.mcp_type = MCPType.grafana then
    "http://localhost:" ++ toString c.port ++ "/mcp"
  else
    "http://localhost:" ++ toString c.port ++ "/sse"

/-- Status of a managed container (class ContainerStatus). -/
structure ContainerStatus where
  config : ContainerConfig
  state : ContainerState
  container_id : Option String := none
  started_at : Option Nat := none
  last_accessed : Nat
  error_message : Option String := none
deriving DecidableEq, Repr

/-- All containers for a customer (class CustomerContainers). -/
structure CustomerContainers where
  customer_name : String
  containers : List (MCPType × ContainerStatus) := []
  last_accessed : Nat
deriving DecidableEq, Repr

/-- CustomerContainers.update_access_time at the abstract instant now. -/
def CustomerContainers.touch (c : CustomerContainers) (now : Nat) : CustomerContainers :=
  { c with
    last_accessed := now
    containers := c.containers.map (fun p => (p.1, { p.2 with last_accessed := now })) }

/-- CustomerContainers.all_healthy. -/
def CustomerContainers.allHealthy (c : CustomerContainers) : Bool :=
  c.containers.all (fun p => decide (p.2.state = ContainerState.healthy))

/-- One entry of the mcp_servers list passed to start_customer_containers:
the top-level "type" key plus the fields of the "config" sub-dict that
_build_container_config reads.  Absent dict keys are none. -/
structure MCPServerConfig where
  type_str : Option String := none
  grafana_url : Option String := none
  token_env : Option String := none
  alertmanager_url : Option String := none
  region : Option String := none
  client_id_env : Option String := none
  client_secret_env : Option String := none
deriving DecidableEq, Repr

/-- The port ledger self._port_allocations: container_name to allocated host port. -/
abbrev PortLedger := List (String × Nat)

/-- The mutable state of MCPContainerManager. -/
structure ManagerState where
  customers : List (String × CustomerContainers)
  max_warm : Nat
  network_name : String
  health_timeout : Nat
  health_interval : Nat
  startup_timeout : Nat
  port_allocations : PortLedger
  port_ranges : MCPType → Nat × Nat
  images : MCPType → String

/-- Default port ranges set in MCPContainerManager.__init__ (host_start, internal). -/
def defaultPortRanges : MCPType → Nat × Nat
  | .grafana => (3100, 8888)
  | .alertmanager => (9100, 8080)
  | .genesys => (9200, 8080)

/-- Default image names set in MCPContainerManager.__init__. -/
def defaultImages : MCPType → String
  | .grafana => "grafana/mcp-grafana:latest"
  | .alertmanager => "sm3/alertmanager-mcp:latest"
  | .genesys => "sm3/genesys-mcp:latest"

/-- A freshly initialised manager (MCPContainerManager.__init__). -/
def initialState : ManagerState where
  customers := []
  max_warm := 3
  network_name := "sm3-mcp-network"
  health_timeout := 30
  health_interval := 2
  startup_timeout := 60
  port_allocations := []
  port_ranges := defaultPortRanges
  images := defaultImages

/-- Outcome of one Docker SDK call: normal return, a NotFound exception
carrying its message, or any other exception carrying its message. -/
inductive DockerResult (α : Type) where
  | ok (val : α)
  | notFound (msg : String)
  | err (msg : String)
deriving DecidableEq, Repr

/-- Outcome of one HTTP health probe: an HTTP status code, or a raised
transport error. -/
inductive ProbeResult where
  | status (code : Nat)
  | transportError
deriving DecidableEq, Repr

/-- External calls the orchestrator can issue; operations return the list
of calls they made. -/
inductive Event where
  | getByName (name : String)
  | removeByName (name : String)
  | getNetwork (name : String)
  | createNetwork (name : String)
  | getImage (image : String)
  | pullImage (image : String)
  | run (name : String)
  | probe (url : String) (attempt : Nat)
  | getById (id : String)
  | stop (id : String)
  | removeById (id : String)
  | listManaged
  | removeForce (id : String)
deriving DecidableEq, Repr

/-- Environment supplying the outcome of every external call.  Functions
are keyed by the argument the Python code passes.  healthPolls abstracts
the wall clock: it is the number of health-poll loop iterations that
begin before the health timeout elapses. -/
structure DockerEnv where
  getByName : String → DockerResult (String × String)
  removeByName : String → DockerResult Unit
  getNetwork : String → DockerResult Unit
  createNetwork : String → DockerResult Unit
  getImage : String → DockerResult Unit
  pullImage : String → DockerResult Unit
  run : ContainerConfig → DockerResult String
  getById : String → DockerResult Unit
  stop : String → DockerResult Unit
  removeById : String → DockerResult Unit
  listManaged : DockerResult (List (String × String))
  removeForce : String → DockerResult Unit
  probe : String → Nat → ProbeResult
  healthPolls : Nat

/-! Port allocator (_allocate_port / _release_port). -/

/-- The scan inside _allocate_port: try port, port+1, ... for fuel
offsets, returning the first port not in used. -/
def scanPorts (used : List Nat) (port : Nat) : Nat → Option Nat
  | 0 => none
  | fuel + 1 => if port ∈ used then scanPorts used (port + 1) fuel else some port

/-- MCPContainerManager._allocate_port.  On success returns the port and
the updated ledger; raises (returns error) when 100 consecutive ports
starting at the base port of the type are all in use. -/
def allocatePort (port_ranges : MCPType → Nat × Nat) (mcp_type : MCPType)
    (container_name : String) (ledger : PortLedger) : Except String (Nat × PortLedger) :=
  match dictGet ledger container_name with
  | some p => .ok (p, ledger)
  | none =>
    let base := (port_ranges mcp_type).1
    let used := ledger.map (·.2)
    match scanPorts used base 100 with
    | some p => .ok (p, ledger ++ [(container_name, p)])
    | none => .error ("No available ports for " ++ mcp_type.value)

/-- MCPContainerManager._release_port. -/
def releasePort (container_name : String) (ledger : PortLedger) : PortLedger :=
  dictPop ledger container_name

/-- Environment-variable construction inside _build_container_config.
osEnv models os.environ.get. -/
def buildEnvironment (osEnv : String → Option String) (mcp_type : MCPType)
    (sc : MCPServerConfig) : List (String × String) :=
  match mcp_type with
  | .grafana =>
    let base := [("GRAFANA_URL", sc.grafana_url.getD "")]
    let tokenEnv := sc.token_env.getD ""
    if tokenEnv ≠ "" then
      base ++ [("GRAFANA_SERVICE_ACCOUNT_TOKEN", (osEnv tokenEnv).getD ""),
               ("GRAFANA_TOKEN", (osEnv tokenEnv).getD "")]
    else base
  | .alertmanager =>
    [("ALERTMANAGER_URL", sc.alertmanager_url.getD ""), ("MCP_TRANSPORT", "sse")]
  | .genesys =>
    let base := [("GENESYSCLOUD_REGION", sc.region.getD "mypurecloud.com")]
    let cid := sc.client_id_env.getD ""
    let b2 := if cid ≠ "" then
        base ++ [("GENESYSCLOUD_OAUTHCLIENT_ID", (osEnv cid).getD "")]
      else base
    let csec := sc.client_secret_env.getD ""
    if csec ≠ "" then
      b2 ++ [("GENESYSCLOUD_OAUTHCLIENT_SECRET", (osEnv csec).getD "")]
    else b2

/-- MCPContainerManager._build_container_config: build the config and
allocate its port; the allocation failure propagates as an exception. -/
def buildContainerConfig (osEnv : String → Option String)
    (images : MCPType → String) (port_ranges : MCPType → Nat × Nat)
    (ledger : PortLedger) (customer_name : String) (mcp_type : MCPType)
    (sc : MCPServerConfig) : Except String (ContainerConfig × PortLedger) :=
  let image := images mcp_type
  let internal_port := (port_ranges mcp_type).2
  let environment := buildEnvironment osEnv mcp_type sc
  let temp : ContainerConfig :=
    { customer_name := customer_name, mcp_type := mcp_type, image := image
      environment := environment, port := 0, internal_port := internal_port }
  match allocatePort port_ranges mcp_type temp.container_name ledger with
  | .error m => .error m
  | .ok (port, ledger') => .ok ({ temp with port := port }, ledger')

/-- The config-building loop at the top of start_customer_containers:
entries whose type string is not a recognised MCPType are skipped; a
config-build (port allocation) failure propagates, keeping the ledger
entries allocated by the earlier iterations. -/
def buildConfigs (osEnv : String → Option String) (images : MCPType → String)
    (port_ranges : MCPType → Nat × Nat) (ledger : PortLedger)
    (customer_name : String) :
    List MCPServerConfig → Except String (List ContainerConfig) × PortLedger
  | [] => (.ok [], ledger)
  | sc :: rest =>
    match MCPType.ofString? (sc.type_str.getD "") with
    | none => buildConfigs osEnv images port_ranges ledger customer_name rest
    | some t =>
      match buildContainerConfig osEnv images port_ranges ledger customer_name t sc with
      | .error m => (.error m, ledger)
      | .ok (cfg, ledger') =>
        match buildConfigs osEnv images port_ranges ledger' customer_name rest with
        | (.ok cfgs, ledger'') => (.ok (cfg :: cfgs), ledger'')
        | (.error m, ledger'') => (.error m, ledger'')

/-! Container lifecycle driver (_start_container). -/

/-- The ContainerStatus constructed at the top of _start_container. -/
def initialStatus (config : ContainerConfig) (now : Nat) : ContainerStatus :=
  { config := config, state := .starting, container_id := none
    started_at := none, last_accessed := now, error_message := none }

/-- The generic except-branch of _start_container and _stop_container:
transition to ERROR recording the causing message. -/
def errorStatus (st : ContainerStatus) (msg : String) : ContainerStatus :=
  { st with state := .error, error_message := some msg }

/-- Final step of _start_container: docker.containers.run.  A NotFound
raised here is caught only by the generic except branch. -/
def startContainerRun (env : DockerEnv) (now : Nat) (config : ContainerConfig)
    (st : ContainerStatus) : ContainerStatus × List Event :=
  match env.run config with
  | .ok id =>
    ({ st with state := .running, container_id := some id, started_at := some now },
     [.run config.container_name])
  | .notFound m => (errorStatus st m, [.run config.container_name])
  | .err m => (errorStatus st m, [.run config.container_name])

/-- Image step of _start_container: images.get, pulling on ImageNotFound. -/
def startContainerImage (env : DockerEnv) (now : Nat) (config : ContainerConfig)
    (st : ContainerStatus) : ContainerStatus × List Event :=
  match env.getImage config.image with
  | .ok _ =>
    let r := startContainerRun env now config st
    (r.1, .getImage config.image :: r.2)
  | .notFound _ =>
    match env.pullImage config.image with
    | .ok _ =>
      let r := startContainerRun env now config st
      (r.1, .getImage config.image :: .pullImage config.image :: r.2)
    | .notFound m => (errorStatus st m, [.getImage config.image, .pullImage config.image])
    | .err m => (errorStatus st m, [.getImage config.image, .pullImage config.image])
  | .err m => (errorStatus st m, [.getImage config.image])

/-- Network step of _start_container (_ensure_network): networks.get,
creating the network when it does not exist.  Exceptions from
networks.create are caught only by the generic except branch. -/
def startContainerNetwork (env : DockerEnv) (network_name : String) (now : Nat)
    (config : ContainerConfig) (st : ContainerStatus) : ContainerStatus × List Event :=
  match env.getNetwork network_name with
  | .ok _ =>
    let r := startContainerImage env now config st
    (r.1, .getNetwork network_name :: r.2)
  | .notFound _ =>
    match env.createNetwork network_name with
    | .ok _ =>
      let r := startContainerImage env now config st
      (r.1, .getNetwork network_name :: .createNetwork network_name :: r.2)
    | .notFound m => (errorStatus st m, [.getNetwork network_name, .createNetwork network_name])
    | .err m => (errorStatus st m, [.getNetwork network_name, .createNetwork network_name])
  | .err m => (errorStatus st m, [.getNetwork network_name])

/-- MCPContainerManager._start_container.  First checks for an existing
container with the target name: a running one is adopted, a stopped one
is removed (a NotFound from the get or the remove is swallowed); then
network, image and run steps follow.  Every other exception transitions
the status to ERROR with the causing message. -/
def startContainer (env : DockerEnv) (network_name : String) (now : Nat)
    (config : ContainerConfig) : ContainerStatus × List Event :=
  let st := initialStatus config now
  let name := config.container_name
  match env.getByName name with
  | .ok (id, dstat) =>
    if dstat = "running" then
      ({ st with state := .running, container_id := some id, started_at := some now },
       [.getByName name])
    else
      match env.removeByName name with
      | .err m => (errorStatus st m, [.getByName name, .removeByName name])
      | .ok _ =>
        let r := startContainerNetwork env network_name now config st
        (r.1, .getByName name :: .removeByName name :: r.2)
      | .notFound _ =>
        let r := startContainerNetwork env network_name now config st
        (r.1, .getByName name :: .removeByName name :: r.2)
  | .notFound _ =>
    let r := startContainerNetwork env network_name now config st
    (r.1, .getByName name :: r.2)
  | .err m => (errorStatus st m, [.getByName name])

/-! Health prober (_wait_for_healthy). -/

/-- Is a probe outcome in the class the code accepts as healthy
(resp.status in (200, 405))? -/
def probeHealthy : ProbeResult → Bool
  | .status c => c = 200 ∨ c = 405
  | .transportError => false

/-- The poll loop of _wait_for_healthy: attempts attempt, attempt+1, ...
for fuel iterations, returning the index of the first healthy response.
A transport error is swallowed and polling continues. -/
def healthLoop (probe : Nat → ProbeResult) (attempt : Nat) : Nat → Option Nat
  | 0 => none
  | fuel + 1 =>
    if probeHealthy (probe attempt) then some attempt
    else healthLoop probe (attempt + 1) fuel

/-- Python "timeout or self._health_timeout": the explicit argument is
used unless it is None or falsy (0). -/
def effectiveTimeout (health_timeout : Nat) : Option Nat → Nat
  | none => health_timeout
  | some t => if t = 0 then health_timeout else t

/-- Probe events for the first n poll iterations against url. -/
def probeEvents (url : String) (n : Nat) : List Event :=
  (List.range n).map (fun i => Event.probe url i)

/-- The error message _wait_for_healthy records on timeout. -/
def timeoutMessage (timeout : Nat) : String :=
  "Health check timeout after " ++ toString timeout ++ "s"

/-- MCPContainerManager._wait_for_healthy.  A status already in ERROR is
returned unchanged.  Otherwise the health endpoint is polled until a
response with code 200 or 405 arrives (HEALTHY) or the admitted polls
are exhausted (UNHEALTHY, with a message naming the timeout). -/
def waitForHealthy (env : DockerEnv) (health_timeout : Nat) (timeoutArg : Option Nat)
    (status : ContainerStatus) : ContainerStatus × List Event :=
  if status.state = ContainerState.error then (status, [])
  else
    let timeout := effectiveTimeout health_timeout timeoutArg
    let url := status.config.url
    match healthLoop (env.probe url) 0 env.healthPolls with
    | some i => ({ status with state := .healthy }, probeEvents url (i + 1))
    | none =>
      ({ status with state := .unhealthy, error_message := some (timeoutMessage timeout) },
       probeEvents url env.healthPolls)

/-! Defensive stop (_stop_container). -/

/-- MCPContainerManager._stop_container.  No-op without a container id.
A NotFound raised by the get, the stop or the remove leaves the status
in NOT_FOUND; any other exception transitions to ERROR with the causing
message.  The port is released only when stop and remove both succeed. -/
def stopContainer (env : DockerEnv) (ledger : PortLedger) (status : ContainerStatus) :
    ContainerStatus × PortLedger × List Event :=
  match status.container_id with
  | none => (status, ledger, [])
  | some id =>
    let st1 := { status with state := ContainerState.stopping }
    match env.getById id with
    | .notFound _ => ({ st1 with state := .not_found }, ledger, [.getById id])
    | .err m => (errorStatus st1 m, ledger, [.getById id])
    | .ok _ =>
      match env.stop id with
      | .notFound _ => ({ st1 with state := .not_found }, ledger, [.getById id, .stop id])
      | .err m => (errorStatus st1 m, ledger, [.getById id, .stop id])
      | .ok _ =>
        match env.removeById id with
        | .notFound _ =>
          ({ st1 with state := .not_found }, ledger, [.getById id, .stop id, .removeById id])
        | .err m => (errorStatus st1 m, ledger, [.getById id, .stop id, .removeById id])
        | .ok _ =>
          ({ st1 with state := .stopped },
           releasePort status.config.container_name ledger,
           [.getById id, .stop id, .removeById id])

/-- Stop every container of one customer in dict order, threading the
port ledger (the loop bodies of _enforce_lru_limit and
stop_customer_containers).  The final statuses are dropped along with
the customer, as in the source. -/
def stopAllFor (env : DockerEnv) : PortLedger → List (MCPType × ContainerStatus) →
    PortLedger × List Event
  | ledger, [] => (ledger, [])
  | ledger, (_, st) :: rest =>
    let r := stopContainer env ledger st
    let r' := stopAllFor env r.2.1 rest
    (r'.1, r.2.2 ++ r'.2)

/-! Warm pool eviction (_enforce_lru_limit). -/

/-- MCPContainerManager._enforce_lru_limit: while the pool exceeds
max_warm, pop the least-recently-used customer (the head of the ordered
dict) and stop all its containers. -/
def evictLoop (env : DockerEnv) (maxWarm : Nat) :
    List (String × CustomerContainers) → PortLedger →
    List (String × CustomerContainers) × PortLedger × List Event
  | [], ledger => ([], ledger, [])
  | c :: rest, ledger =>
    if maxWarm < (c :: rest).length then
      let r := stopAllFor env ledger c.2.containers
      let r' := evictLoop env maxWarm rest r.1
      (r'.1, r'.2.1, r.2 ++ r'.2.2)
    else (c :: rest, ledger, [])

/-! Orchestrator facade. -/

/-- Health-wait fan-out in start_customer_containers: wait on every
container in RUNNING state, leaving the others untouched. -/
def waitAll (env : DockerEnv) (health_timeout : Nat) :
    List (MCPType × ContainerStatus) → List (MCPType × ContainerStatus) × List Event
  | [] => ([], [])
  | (t, st) :: rest =>
    let r := if st.state = ContainerState.running
      then waitForHealthy env health_timeout none st
      else (st, [])
    let r' := waitAll env health_timeout rest
    ((t, r.1) :: r'.1, r.2 ++ r'.2)

/-- The fresh-start path of start_customer_containers (everything after
the warm-pool short circuit): build configs (a port-allocation failure
propagates, keeping the already-allocated ledger entries), start all
containers, optionally wait for health, insert into the pool and
enforce the LRU limit. -/
def startFresh (env : DockerEnv) (osEnv : String → Option String) (now : Nat)
    (s : ManagerState) (customer_name : String) (mcp_servers : List MCPServerConfig)
    (wait_for_healthy : Bool) :
    Except String CustomerContainers × ManagerState × List Event :=
  match buildConfigs osEnv s.images s.port_ranges s.port_allocations customer_name mcp_servers with
  | (.error m, ledger1) => (.error m, { s with port_allocations := ledger1 }, [])
  | (.ok configs, ledger1) =>
    let started := configs.map (fun cfg => startContainer env s.network_name now cfg)
    let ev1 := (started.map (·.2)).foldr (· ++ ·) []
    let conts1 := started.foldl (fun acc r => dictSet acc r.1.config.mcp_type r.1) []
    let waited := if wait_for_healthy then waitAll env s.health_timeout conts1
      else (conts1, [])
    let customer : CustomerContainers :=
      { customer_name := customer_name, containers := waited.1, last_accessed := now }
    let customers1 := dictSet s.customers customer_name customer
    let r := evictLoop env s.max_warm customers1 ledger1
    (.ok customer, { s with customers := r.1, port_allocations := r.2.1 },
     (ev1 ++ waited.2) ++ r.2.2)

/-- MCPContainerManager.start_customer_containers.  A resident customer
is touched and moved to the most-recently-used position; if it is fully
healthy it is returned with no further effect.  Otherwise the fresh
start path runs.  The Except models the exception a port-allocation
failure raises out of the call; the returned ManagerState reflects the
mutations made before the raise. -/
def startCustomerContainers (env : DockerEnv) (osEnv : String → Option String)
    (now : Nat) (s : ManagerState) (customer_name : String)
    (mcp_servers : List MCPServerConfig) (wait_for_healthy : Bool) :
    Except String CustomerContainers × ManagerState × List Event :=
  match dictGet s.customers customer_name with
  | some customer =>
    let touched := customer.touch now
    let s1 := { s with
      customers := dictPop s.customers customer_name ++ [(customer_name, touched)] }
    if touched.allHealthy then (.ok touched, s1, [])
    else startFresh env osEnv now s1 customer_name mcp_servers wait_for_healthy
  | none => startFresh env osEnv now s customer_name mcp_servers wait_for_healthy

/-- MCPContainerManager.stop_customer_containers: pop the customer (no-op
when absent) and stop all its containers. -/
def stopCustomerContainers (env : DockerEnv) (s : ManagerState) (customer_name : String) :
    ManagerState × List Event :=
  match dictGet s.customers customer_name with
  | none => (s, [])
  | some customer =>
    let r := stopAllFor env s.port_allocations customer.containers
    ({ s with customers := dictPop s.customers customer_name, port_allocations := r.1 },
     r.2)

/-- The loop of stop_all_containers over a snapshot of the key list. -/
def stopEach (env : DockerEnv) : ManagerState → List String → ManagerState × List Event
  | s, [] => (s, [])
  | s, n :: rest =>
    let r := stopCustomerContainers env s n
    let r' := stopEach env r.1 rest
    (r'.1, r.2 ++ r'.2)

/-- MCPContainerManager.stop_all_containers. -/
def stopAllContainers (env : DockerEnv) (s : ManagerState) : ManagerState × List Event :=
  stopEach env s (dictKeys s.customers)

/-- MCPContainerManager.get_customer_status. -/
def getCustomerStatus (s : ManagerState) (customer_name : String) : Option CustomerContainers :=
  dictGet s.customers customer_name

/-- MCPContainerManager.get_active_customers. -/
def getActiveCustomers (s : ManagerState) : List String :=
  dictKeys s.customers

/-- MCPContainerManager.get_container_urls: only HEALTHY containers are
included. -/
def getContainerUrls (s : ManagerState) (customer_name : String) : List (String × String) :=
  match dictGet s.customers customer_name with
  | none => []
  | some customer =>
    (customer.containers.filter (fun p => decide (p.2.state = ContainerState.healthy))).map
      (fun p => (p.1.value, p.2.config.url))

/-! Orphan cleanup (cleanup_orphaned_containers). -/

/-- The removal loop of cleanup_orphaned_containers over the listed
(id, name) pairs.  A failing remove (any exception, NotFound included)
aborts the pass, reporting the removals made so far. -/
def cleanupLoop (env : DockerEnv) (managedIds : List String) :
    List (String × String) → Nat → Nat × List Event
  | [], removed => (removed, [])
  | (id, _) :: rest, removed =>
    if id ∈ managedIds then cleanupLoop env managedIds rest removed
    else
      match env.removeForce id with
      | .ok _ =>
        let r := cleanupLoop env managedIds rest (removed + 1)
        (r.1, .removeForce id :: r.2)
      | .notFound _ => (removed, [.removeForce id])
      | .err _ => (removed, [.removeForce id])

/-- The container ids tracked across all resident customers. -/
def managedIds (s : ManagerState) : List String :=
  (s.customers.map (·.2)).foldr
    (fun c acc => c.containers.filterMap (fun p => p.2.container_id) ++ acc) []

/-- MCPContainerManager.cleanup_orphaned_containers: list the runtime
containers labelled sm3.managed=true and force-remove every one whose id
is not tracked.  A failing listing aborts the pass with zero removed. -/
def cleanupOrphanedContainers (env : DockerEnv) (s : ManagerState) : Nat × List Event :=
  match env.listManaged with
  | .ok conts =>
    let r := cleanupLoop env (managedIds s) conts 0
    (r.1, .listManaged :: r.2)
  | .notFound _ => (0, [.listManaged])
  | .err _ => (0, [.listManaged])

/-! Reachability: the mutating orchestrator operations. -/

/-- One mutating orchestrator operation, with the external-call outcomes
and the abstract instant it runs at. -/
inductive MgrOp where
  | start (env : DockerEnv) (osEnv : String → Option String) (now : Nat)
      (customer_name : String) (mcp_servers : List MCPServerConfig)
      (wait_for_healthy : Bool)
  | stopCustomer (env : DockerEnv) (customer_name : String)
  | stopAll (env : DockerEnv)

/-- The manager state after one mutating operation (for a start that
raises, the partially mutated state left behind by the raise). -/
def applyOp (s : ManagerState) : MgrOp → ManagerState
  | .start env osEnv now customer_name mcp_servers wait_for_healthy =>
    (startCustomerContainers env osEnv now s customer_name mcp_servers wait_for_healthy).2.1
  | .stopCustomer env customer_name => (stopCustomerContainers env s customer_name).1
  | .stopAll env => (stopAllContainers env s).1

/-- States reachable by any sequence of mutating operations from a
freshly initialised (and possibly reconfigured) manager: configure only
sets policy fields and runs before any container is started, so the base
is any state with an empty pool and an empty port ledger. -/
inductive Reachable : ManagerState → Prop where
  | base (s : ManagerState) (h1 : s.customers = []) (h2 : s.port_allocations = []) :
      Reachable s
  | step (s : ManagerState) (op : MgrOp) (h : Reachable s) : Reachable (applyOp s op)

/-! Concrete environments and scenario states used to instantiate the
claims.  envHealthy is a runtime in which no container pre-exists, every
call succeeds, ids are derived from container names and the first health
probe answers 200. -/

/-- A fully healthy runtime environment. -/
def envHealthy : DockerEnv where
  getByName := fun _ => .notFound "not found"
  removeByName := fun _ => .ok ()
  getNetwork := fun _ => .ok ()
  createNetwork := fun _ => .ok ()
  getImage := fun _ => .ok ()
  pullImage := fun _ => .ok ()
  run := fun cfg => .ok ("id-" ++ cfg.container_name)
  getById := fun _ => .ok ()
  stop := fun _ => .ok ()
  removeById := fun _ => .ok ()
  listManaged := .ok []
  removeForce := fun _ => .ok ()
  probe := fun _ _ => .status 200
  healthPolls := 1

/-- A process environment with no variables set. -/
def osEnvEmpty : String → Option String := fun _ => none

/-- A grafana sidecar request. -/
def gspec : MCPServerConfig := { type_str := some "grafana", grafana_url := some "http://g" }

/-- An alertmanager sidecar request. -/
def amspec : MCPServerConfig := { type_str := some "alertmanager", alertmanager_url := some "http://a" }

/-- A sidecar request with an unrecognised type string. -/
def badspec : MCPServerConfig := { type_str := some "postgres" }

/-- LRU scenario (claim C2): max_warm = 2, tenants A then B then C. -/
def lru0 : ManagerState := { initialState with max_warm := 2 }

/-- LRU scenario after starting A. -/
def lru1 : ManagerState :=
  (startCustomerContainers envHealthy osEnvEmpty 0 lru0 "A" [gspec] true).2.1

/-- LRU scenario after starting A then B. -/
def lru2 : ManagerState :=
  (startCustomerContainers envHealthy osEnvEmpty 1 lru1 "B" [gspec] true).2.1

/-- Result of the third start (C), which must evict A. -/
def lru3 : Except String CustomerContainers × ManagerState × List Event :=
  startCustomerContainers envHealthy osEnvEmpty 2 lru2 "C" [gspec] true

/-- Port scenario (claim C4): tenants t1, t2, t3 started with default
max_warm = 3, then t1 stopped, then t4 started. -/
def ports1 : ManagerState :=
  (startCustomerContainers envHealthy osEnvEmpty 0 initialState "t1" [gspec] true).2.1

/-- Port scenario after starting t1, t2. -/
def ports2 : ManagerState :=
  (startCustomerContainers envHealthy osEnvEmpty 1 ports1 "t2" [gspec] true).2.1

/-- Port scenario after starting t1, t2, t3. -/
def ports3 : ManagerState :=
  (startCustomerContainers envHealthy osEnvEmpty 2 ports2 "t3" [gspec] true).2.1

/-- Port scenario after stopping t1. -/
def ports4 : ManagerState := (stopCustomerContainers envHealthy ports3 "t1").1

/-- Port scenario after starting t4. -/
def ports5 : ManagerState :=
  (startCustomerContainers envHealthy osEnvEmpty 3 ports4 "t4" [gspec] true).2.1

/-- Reuse scenario (claim C3): start t, then u, then t again. -/
def reuse1 : Except String CustomerContainers × ManagerState × List Event :=
  startCustomerContainers envHealthy osEnvEmpty 0 initialState "t" [gspec] true

/-- Reuse scenario: second tenant u. -/
def reuse2 : Except String CustomerContainers × ManagerState × List Event :=
  startCustomerContainers envHealthy osEnvEmpty 1 reuse1.2.1 "u" [gspec] true

/-- Reuse scenario: t started a second time, finding it resident and healthy. -/
def reuse3 : Except String CustomerContainers × ManagerState × List Event :=
  startCustomerContainers envHealthy osEnvEmpty 2 reuse2.2.1 "t" [gspec] true

/-- A state whose grafana port window 3100..3199 is fully allocated
(claim C6 counterexample). -/
def exhaustedState : ManagerState :=
  { initialState with
    port_allocations := (List.range 100).map (fun i => ("p" ++ toString i, 3100 + i)) }

/-- A runtime in which docker.containers.run raises for alertmanager
containers and succeeds for the rest (claim C6 sibling containment). -/
def envAmFails : DockerEnv :=
  { envHealthy with
    run := fun cfg =>
      if cfg.mcp_type = MCPType.alertmanager then .err "image pull access denied"
      else .ok ("id-" ++ cfg.container_name) }

/-- Result of starting a tenant with a grafana and an alertmanager
sidecar when the alertmanager run call raises. -/
def siblingRes : Except String CustomerContainers × ManagerState × List Event :=
  startCustomerContainers envAmFails osEnvEmpty 0 initialState "t" [gspec, amspec] true

/-- Extract the ok value of an Except. -/
def exceptOk? {ε α : Type} : Except ε α → Option α
  | .ok a => some a
  | .error _ => none

/-- A placeholder customer record for Option defaults. -/
def noCustomer : CustomerContainers := { customer_name := "", containers := [], last_accessed := 0 }

/-- The customer set returned by the sibling-containment scenario. -/
def siblingCust : CustomerContainers := (exceptOk? siblingRes.1).getD noCustomer

/-- A config record, as built for tenant t, used for health and stop
scenarios. -/
def cfgT : ContainerConfig :=
  { customer_name := "t", mcp_type := .grafana, image := "grafana/mcp-grafana:latest"
    environment := [("GRAFANA_URL", "http://g")], port := 3100, internal_port := 8888 }

/-- A RUNNING status holding a container id, for health and stop
scenarios. -/
def stRunning : ContainerStatus :=
  { config := cfgT, state := .running, container_id := some "cid0"
    started_at := some 0, last_accessed := 0, error_message := none }

/-- A runtime whose health endpoint always answers 204 No Content
(claim C7 counterexample: a successful status outside (200, 405)). -/
def env204 : DockerEnv :=
  { envHealthy with probe := fun _ _ => .status 204, healthPolls := 3 }

/-- A runtime whose health endpoint raises a transport error on the
first poll, answers 500 on the second and 405 on the third (claim C7
witness: transport errors are swallowed and 405 counts as healthy). -/
def envMixed : DockerEnv :=
  { envHealthy with
    probe := fun _ attempt =>
      if attempt = 0 then .transportError
      else if attempt = 1 then .status 500
      else .status 405,
    healthPolls := 5 }

/-- A runtime in which looking a container up by id raises NotFound
(claim C8 counterexample). -/
def envGone : DockerEnv :=
  { envHealthy with getById := fun _ => .notFound "404 not found" }

/-- A runtime listing three managed containers, of which only two are
tracked by the ports2 state (claim C9 witness). -/
def envList3 : DockerEnv :=
  { envHealthy with
    listManaged := .ok
      [("id-sm3-mcp-grafana-t1", "sm3-mcp-grafana-t1"),
       ("orphan-1", "sm3-mcp-grafana-old"),
       ("id-sm3-mcp-grafana-t2", "sm3-mcp-grafana-t2")] }

/-- The customer record resident for t after the second reuse step. -/
def reuseT : CustomerContainers := (dictGet reuse2.2.1.customers "t").getD noCustomer

instance {ε α : Type} [DecidableEq ε] [DecidableEq α] : DecidableEq (Except ε α) := fun a b =>
  match a, b with
  | .ok x, .ok y =>
    if h : x = y then isTrue (by rw [h])
    else isFalse (fun hc => h (by injection hc))
  | .error x, .error y =>
    if h : x = y then isTrue (by rw [h])
    else isFalse (fun hc => h (by injection hc))
  | .ok _, .error _ => isFalse (fun hc => by injection hc)
  | .error _, .ok _ => isFalse (fun hc => by injection hc)

/-! General lemmas about the dict helpers. -/

theorem dictGet_eq_none {κ α : Type} [DecidableEq κ] (l : List (κ × α)) (k : κ) :
    dictGet l k = none ↔ k ∉ l.map (·.1) := by
  induction l with
  | nil => simp [dictGet]
  | cons p rest ih =>
    obtain ⟨k', v⟩ := p
    by_cases h : k' = k
    · simp [dictGet, h]
    · simp only [dictGet, if_neg h, ih, List.map_cons, List.mem_cons]
      constructor
      · intro h1 h2
        rcases h2 with h2 | h2
        · exact h (h2.symm)
        · exact h1 h2
      · intro h1 h2
        exact h1 (Or.inr h2)

theorem dictGet_mem_values {κ α : Type} [DecidableEq κ] (l : List (κ × α)) (k : κ) (v : α)
    (h : dictGet l k = some v) : v ∈ l.map (·.2) := by
  induction l with
  | nil => simp [dictGet] at h
  | cons p rest ih =>
    obtain ⟨k', v'⟩ := p
    by_cases hk : k' = k
    · simp [dictGet, hk] at h
      simp [h]
    · simp [dictGet, hk] at h
      simp [ih h]

theorem dictPop_sublist {κ α : Type} [DecidableEq κ] (l : List (κ × α)) (k : κ) :
    (dictPop l k).Sublist l := by
  induction l with
  | nil => simp [dictPop]
  | cons p rest ih =>
    by_cases h : p.1 = k
    · simp [dictPop, h]
    · simpa [dictPop, h] using ih.cons₂ p

theorem dictPop_length_le {κ α : Type} [DecidableEq κ] (l : List (κ × α)) (k : κ) :
    (dictPop l k).length ≤ l.length :=
  (dictPop_sublist l k).length_le

theorem dictPop_length_of_mem {κ α : Type} [DecidableEq κ] (l : List (κ × α)) (k : κ) (v : α)
    (h : dictGet l k = some v) : (dictPop l k).length + 1 = l.length := by
  induction l with
  | nil => simp [dictGet] at h
  | cons p rest ih =>
    by_cases hk : p.1 = k
    · simp [dictPop, hk]
    · obtain ⟨k', v'⟩ := p
      simp at hk
      simp [dictGet, hk] at h
      simp [dictPop, hk, ih h]

theorem dictSet_length_le {κ α : Type} [DecidableEq κ] (l : List (κ × α)) (k : κ) (v : α) :
    (dictSet l k v).length ≤ l.length + 1 := by
  induction l with
  | nil => simp [dictSet]
  | cons p rest ih =>
    by_cases h : p.1 = k
    · simp [dictSet, h]
    · obtain ⟨k', v'⟩ := p
      simp at h
      simp [dictSet, h]
      omega

/-! Eviction lemmas: _enforce_lru_limit keeps exactly the
most-recently-used max_warm entries, dropping a prefix of the pool in
order, regardless of the health of any container. -/

theorem evictLoop_customers (env : DockerEnv) (m : Nat)
    (cs : List (String × CustomerContainers)) : ∀ ledger : PortLedger,
    (evictLoop env m cs ledger).1 = cs.drop (cs.length - m) := by
  induction cs with
  | nil => intro ledger; simp [evictLoop]
  | cons c rest ih =>
    intro ledger
    by_cases h : m < (c :: rest).length
    · have h2 : m ≤ rest.length := by simpa using Nat.lt_succ_iff.mp (by simpa using h)
      simp only [evictLoop, if_pos h]
      rw [ih]
      rw [List.length_cons, Nat.succ_sub h2, List.drop_succ_cons]
    · simp only [evictLoop, if_neg h]
      have h3 : (c :: rest).length - m = 0 := by omega
      rw [h3, List.drop_zero]

theorem evictLoop_length_le (env : DockerEnv) (m : Nat)
    (cs : List (String × CustomerContainers)) (ledger : PortLedger) :
    (evictLoop env m cs ledger).1.length ≤ m := by
  rw [evictLoop_customers, List.length_drop]
  omega

/-! Capacity lemmas for claim C1. -/

theorem startFresh_max_warm (env : DockerEnv) (osEnv : String → Option String) (now : Nat)
    (s : ManagerState) (name : String) (servers : List MCPServerConfig) (w : Bool) :
    ((startFresh env osEnv now s name servers w).2.1).max_warm = s.max_warm := by
  unfold startFresh
  split <;> simp

theorem startFresh_capacity (env : DockerEnv) (osEnv : String → Option String) (now : Nat)
    (s : ManagerState) (name : String) (servers : List MCPServerConfig) (w : Bool)
    (h : s.customers.length ≤ s.max_warm) :
    ((startFresh env osEnv now s name servers w).2.1).customers.length ≤ s.max_warm := by
  unfold startFresh
  split
  · simpa using h
  · simpa using evictLoop_length_le env s.max_warm _ _

theorem startCustomer_max_warm (env : DockerEnv) (osEnv : String → Option String) (now : Nat)
    (s : ManagerState) (name : String) (servers : List MCPServerConfig) (w : Bool) :
    ((startCustomerContainers env osEnv now s name servers w).2.1).max_warm = s.max_warm := by
  unfold startCustomerContainers
  split
  · next c heq =>
    by_cases hh : (c.touch now).allHealthy = true
    · simp [hh]
    · simp only [hh, if_false, Bool.false_eq_true]
      rw [startFresh_max_warm]
  · rw [startFresh_max_warm]

theorem startCustomer_capacity (env : DockerEnv) (osEnv : String → Option String) (now : Nat)
    (s : ManagerState) (name : String) (servers : List MCPServerConfig) (w : Bool)
    (h : s.customers.length ≤ s.max_warm) :
    ((startCustomerContainers env osEnv now s name servers w).2.1).customers.length
      ≤ s.max_warm := by
  unfold startCustomerContainers
  split
  · next c heq =>
    have hlen : (dictPop s.customers name).length + 1 = s.customers.length :=
      dictPop_length_of_mem s.customers name c heq
    by_cases hh : (c.touch now).allHealthy = true
    · simp [hh]
      omega
    · simp only [hh, if_false, Bool.false_eq_true]
      have := startFresh_capacity env osEnv now
        { s with customers := dictPop s.customers name ++ [(name, c.touch now)] }
        name servers w (by simp; omega)
      simpa using this
  · exact startFresh_capacity env osEnv now s name servers w h

theorem stopCustomer_max_warm (env : DockerEnv) (s : ManagerState) (name : String) :
    ((stopCustomerContainers env s name).1).max_warm = s.max_warm := by
  unfold stopCustomerContainers
  split <;> simp

theorem stopCustomer_length_le (env : DockerEnv) (s : ManagerState) (name : String) :
    ((stopCustomerContainers env s name).1).customers.length ≤ s.customers.length := by
  unfold stopCustomerContainers
  split
  · simp
  · simpa using dictPop_length_le s.customers name

theorem stopEach_max_warm (env : DockerEnv) (names : List String) : ∀ s : ManagerState,
    ((stopEach env s names).1).max_warm = s.max_warm := by
  induction names with
  | nil => intro s; simp [stopEach]
  | cons n rest ih =>
    intro s
    simp only [stopEach]
    rw [ih, stopCustomer_max_warm]

theorem stopEach_length_le (env : DockerEnv) (names : List String) : ∀ s : ManagerState,
    ((stopEach env s names).1).customers.length ≤ s.customers.length := by
  induction names with
  | nil => intro s; simp [stopEach]
  | cons n rest ih =>
    intro s
    simp only [stopEach]
    exact le_trans (ih _) (stopCustomer_length_le env s n)

theorem applyOp_max_warm (s : ManagerState) (op : MgrOp) :
    (applyOp s op).max_warm = s.max_warm := by
  cases op with
  | start env osEnv now name servers w => exact startCustomer_max_warm env osEnv now s name servers w
  | stopCustomer env name => exact stopCustomer_max_warm env s name
  | stopAll env => exact stopEach_max_warm env (dictKeys s.customers) s

theorem applyOp_capacity (s : ManagerState) (op : MgrOp)
    (h : s.customers.length ≤ s.max_warm) :
    (applyOp s op).customers.length ≤ (applyOp s op).max_warm := by
  rw [applyOp_max_warm]
  cases op with
  | start env osEnv now name servers w => exact startCustomer_capacity env osEnv now s name servers w h
  | stopCustomer env name => exact le_trans (stopCustomer_length_le env s name) h
  | stopAll env => exact le_trans (stopEach_length_le env (dictKeys s.customers) s) h

/-- Claim C1 (confirmed).  Warm-pool capacity invariant: after every
mutating operation (start_customer_containers, stop_customer_containers,
stop_all_containers) in any sequence run from a configured manager, the
number of resident tenants is at most max_warm. -/
theorem warm_pool_capacity_C1 (s : ManagerState) (h : Reachable s) :
    s.customers.length ≤ s.max_warm := by
  induction h with
  | base s h1 _ => simp [h1]
  | step s op _ ih => exact applyOp_capacity s op ih

/-- Witness for C1 at a concrete reachable state: the pool after one
concrete start operation. -/
theorem warm_pool_capacity_C1_witness :
    (applyOp initialState
        (MgrOp.start envHealthy osEnvEmpty 0 "t1" [gspec] true)).customers.length
      ≤ (applyOp initialState
        (MgrOp.start envHealthy osEnvEmpty 0 "t1" [gspec] true)).max_warm :=
  warm_pool_capacity_C1 _
    (Reachable.step initialState (MgrOp.start envHealthy osEnvEmpty 0 "t1" [gspec] true)
      (Reachable.base initialState rfl rfl))

/-- Claim C2 (confirmed).  LRU eviction order: with max_warm = 2,
starting healthy tenants A, B, then C evicts exactly A (its container is
stopped and removed, B and C are untouched) and get_active_customers
returns [B, C]; and in general _enforce_lru_limit keeps exactly the
most-recently-used max_warm pool entries, dropping the least recently
used ones in order, with no regard to container health. -/
theorem lru_eviction_order_C2 :
    (getActiveCustomers lru3.2.1 = ["B", "C"]
      ∧ Event.stop "id-sm3-mcp-grafana-a" ∈ lru3.2.2
      ∧ Event.removeById "id-sm3-mcp-grafana-a" ∈ lru3.2.2
      ∧ Event.stop "id-sm3-mcp-grafana-b" ∉ lru3.2.2
      ∧ Event.stop "id-sm3-mcp-grafana-c" ∉ lru3.2.2
      ∧ dictGet lru3.2.1.customers "A" = none)
    ∧ ∀ (env : DockerEnv) (m : Nat) (cs : List (String × CustomerContainers))
        (ledger : PortLedger),
        (evictLoop env m cs ledger).1 = cs.drop (cs.length - m) :=
  ⟨by decide, fun env m cs ledger => evictLoop_customers env m cs ledger⟩

/-! Warm-pool reuse lemmas for claim C3. -/

theorem allHealthy_touch (c : CustomerContainers) (now : Nat) :
    (c.touch now).allHealthy = c.allHealthy := by
  simp only [CustomerContainers.touch, CustomerContainers.allHealthy, List.all_map]
  rfl

/-- Claim C3 (confirmed).  Idempotent reuse: when the tenant is resident
and fully healthy, start_customer_containers only touches it and moves
it to the most-recently-used position, returning the existing set with
no external call at all; concretely, starting t, then u, then t again
issues the runtime run call exactly once for t, the second start of t
makes no external call (no create, start or probe), returns the touched
resident set, and leaves t most recently used. -/
theorem idempotent_reuse_C3 (env : DockerEnv) (osEnv : String → Option String) (now : Nat)
    (s : ManagerState) (name : String) (servers : List MCPServerConfig)
    (c : CustomerContainers)
    (h1 : dictGet s.customers name = some c)
    (h2 : c.allHealthy = true) :
    (startCustomerContainers env osEnv now s name servers true =
      (.ok (c.touch now),
       { s with customers := dictPop s.customers name ++ [(name, c.touch now)] },
       []))
    ∧ ((reuse1.2.2.filter (fun e => decide (e = Event.run "sm3-mcp-grafana-t"))).length = 1
      ∧ reuse3.2.2 = []
      ∧ exceptOk? reuse3.1
          = some (((dictGet reuse2.2.1.customers "t").getD noCustomer).touch 2)
      ∧ getActiveCustomers reuse3.2.1 = ["u", "t"]) := by
  constructor
  · unfold startCustomerContainers
    rw [h1]
    simp [allHealthy_touch, h2]
  · decide

/-- Witness for C3: the short-circuit equality instantiated at the
concrete reuse scenario (t resident and healthy after its first start
and the start of u). -/
theorem idempotent_reuse_C3_witness :
    (startCustomerContainers envHealthy osEnvEmpty 2 reuse2.2.1 "t" [gspec] true =
      (.ok (reuseT.touch 2),
       { reuse2.2.1 with customers := dictPop reuse2.2.1.customers "t" ++ [("t", reuseT.touch 2)] },
       []))
    ∧ ((reuse1.2.2.filter (fun e => decide (e = Event.run "sm3-mcp-grafana-t"))).length = 1
      ∧ reuse3.2.2 = []
      ∧ exceptOk? reuse3.1
          = some (((dictGet reuse2.2.1.customers "t").getD noCustomer).touch 2)
      ∧ getActiveCustomers reuse3.2.1 = ["u", "t"]) :=
  idempotent_reuse_C3 envHealthy osEnvEmpty 2 reuse2.2.1 "t" [gspec]
    reuseT (by decide) (by decide)

/-! Port ledger well-formedness (claims C4 and C5): keys unique (a dict)
and no port held by two container names. -/

/-- Well-formed port ledger: unique container names and pairwise
distinct ports. -/
def LedgerWF (l : PortLedger) : Prop :=
  (l.map (·.1)).Nodup ∧ (l.map (·.2)).Nodup

theorem scanPorts_some_spec (used : List Nat) : ∀ (fuel base p : Nat),
    scanPorts used base fuel = some p →
    p ∉ used ∧ base ≤ p ∧ p < base + fuel ∧ ∀ q, base ≤ q → q < p → q ∈ used := by
  intro fuel
  induction fuel with
  | zero => intro base p h; simp [scanPorts] at h
  | succ n ih =>
    intro base p h
    simp only [scanPorts] at h
    by_cases hmem : base ∈ used
    · rw [if_pos hmem] at h
      obtain ⟨h1, h2, h3, h4⟩ := ih (base + 1) p h
      refine ⟨h1, by omega, by omega, ?_⟩
      intro q hq1 hq2
      by_cases hq : q = base
      · subst hq; exact hmem
      · exact h4 q (by omega) hq2
    · rw [if_neg hmem] at h
      injection h with h
      subst h
      exact ⟨hmem, le_refl _, by omega, fun q hq1 hq2 => absurd hq1 (by omega)⟩

theorem scanPorts_none_spec (used : List Nat) : ∀ (fuel base : Nat),
    scanPorts used base fuel = none → ∀ o, o < fuel → (base + o) ∈ used := by
  intro fuel
  induction fuel with
  | zero => intro base _ o ho; omega
  | succ n ih =>
    intro base h o ho
    simp only [scanPorts] at h
    by_cases hmem : base ∈ used
    · rw [if_pos hmem] at h
      cases o with
      | zero => simpa using hmem
      | succ o' =>
        have := ih (base + 1) h o' (by omega)
        have harith : base + 1 + o' = base + (o' + 1) := by omega
        rwa [harith] at this
    · rw [if_neg hmem] at h
      exact absurd h (by simp)

theorem allocatePort_WF (pr : MCPType → Nat × Nat) (t : MCPType) (name : String)
    (l : PortLedger) (p : Nat) (l' : PortLedger) (hwf : LedgerWF l)
    (h : allocatePort pr t name l = .ok (p, l')) : LedgerWF l' := by
  unfold allocatePort at h
  cases hg : dictGet l name with
  | some q =>
    rw [hg] at h
    simp only [Except.ok.injEq, Prod.mk.injEq] at h
    rw [← h.2]
    exact hwf
  | none =>
    rw [hg] at h
    simp only at h
    cases hs : scanPorts (l.map (·.2)) (pr t).1 100 with
    | none => rw [hs] at h; exact absurd h (by simp)
    | some q =>
      rw [hs] at h
      simp only [Except.ok.injEq, Prod.mk.injEq] at h
      obtain ⟨hqp, hl⟩ := h
      rw [← hl]
      have hname : name ∉ l.map (·.1) := (dictGet_eq_none l name).mp hg
      have hport : q ∉ l.map (·.2) := (scanPorts_some_spec _ 100 _ q hs).1
      constructor
      · simpa [List.nodup_append] using hwf.1.append (List.nodup_singleton name)
          (by simpa using hname)
      · simpa [List.nodup_append] using hwf.2.append (List.nodup_singleton q)
          (by simpa using hport)

theorem releasePort_WF (name : String) (l : PortLedger) (h : LedgerWF l) :
    LedgerWF (releasePort name l) := by
  have hsub := dictPop_sublist l name
  exact ⟨h.1.sublist (hsub.map (·.1)), h.2.sublist (hsub.map (·.2))⟩

theorem stopContainer_ledger (env : DockerEnv) (l : PortLedger) (st : ContainerStatus) :
    (stopContainer env l st).2.1 = l
    ∨ (stopContainer env l st).2.1 = releasePort st.config.container_name l := by
  unfold stopContainer
  split
  · exact Or.inl rfl
  · split
    · exact Or.inl rfl
    · exact Or.inl rfl
    · split
      · exact Or.inl rfl
      · exact Or.inl rfl
      · split
        · exact Or.inl rfl
        · exact Or.inl rfl
        · exact Or.inr rfl

theorem stopContainer_WF (env : DockerEnv) (l : PortLedger) (st : ContainerStatus)
    (h : LedgerWF l) : LedgerWF (stopContainer env l st).2.1 := by
  rcases stopContainer_ledger env l st with he | he <;> rw [he]
  · exact h
  · exact releasePort_WF _ _ h

theorem stopAllFor_WF (env : DockerEnv) (conts : List (MCPType × ContainerStatus)) :
    ∀ l : PortLedger, LedgerWF l → LedgerWF (stopAllFor env l conts).1 := by
  induction conts with
  | nil => intro l h; simpa [stopAllFor] using h
  | cons p rest ih =>
    intro l h
    simp only [stopAllFor]
    exact ih _ (stopContainer_WF env l p.2 h)

theorem evictLoop_WF (env : DockerEnv) (m : Nat)
    (cs : List (String × CustomerContainers)) : ∀ l : PortLedger,
    LedgerWF l → LedgerWF (evictLoop env m cs l).2.1 := by
  induction cs with
  | nil => intro l h; simpa [evictLoop] using h
  | cons c rest ih =>
    intro l h
    by_cases hlt : m < (c :: rest).length
    · simp only [evictLoop, if_pos hlt]
      exact ih _ (stopAllFor_WF env c.2.containers l h)
    · simp only [evictLoop, if_neg hlt]
      exact h

theorem buildContainerConfig_WF (osEnv : String → Option String)
    (images : MCPType → String) (pr : MCPType → Nat × Nat) (l : PortLedger)
    (name : String) (t : MCPType) (sc : MCPServerConfig) (cfg : ContainerConfig)
    (l' : PortLedger) (hwf : LedgerWF l)
    (h : buildContainerConfig osEnv images pr l name t sc = .ok (cfg, l')) :
    LedgerWF l' := by
  simp only [buildContainerConfig] at h
  split at h
  · exact absurd h (by simp)
  · next port ledger2 heq =>
    simp only [Except.ok.injEq, Prod.mk.injEq] at h
    rw [← h.2]
    exact allocatePort_WF pr t _ l port ledger2 hwf heq

theorem buildConfigs_WF (osEnv : String → Option String) (images : MCPType → String)
    (pr : MCPType → Nat × Nat) (name : String) (servers : List MCPServerConfig) :
    ∀ l : PortLedger, LedgerWF l →
    LedgerWF (buildConfigs osEnv images pr l name servers).2 := by
  induction servers with
  | nil => intro l h; simpa [buildConfigs] using h
  | cons sc rest ih =>
    intro l h
    simp only [buildConfigs]
    split
    · exact ih l h
    · split
      · exact h
      · next cfg ledger' heq =>
        have hwf' : LedgerWF ledger' :=
          buildContainerConfig_WF osEnv images pr l name _ sc cfg ledger' h heq
        have := ih ledger' hwf'
        split
        · next cfgs l'' heq2 => rw [heq2] at this; exact this
        · next m l'' heq2 => rw [heq2] at this; exact this

theorem startFresh_WF (env : DockerEnv) (osEnv : String → Option String) (now : Nat)
    (s : ManagerState) (name : String) (servers : List MCPServerConfig) (w : Bool)
    (h : LedgerWF s.port_allocations) :
    LedgerWF ((startFresh env osEnv now s name servers w).2.1).port_allocations := by
  have hb := buildConfigs_WF osEnv s.images s.port_ranges name servers s.port_allocations h
  unfold startFresh
  split
  · next m ledger1 heq =>
    rw [heq] at hb
    exact hb
  · next configs ledger1 heq =>
    rw [heq] at hb
    exact evictLoop_WF env s.max_warm _ ledger1 hb

theorem startCustomer_WF (env : DockerEnv) (osEnv : String → Option String) (now : Nat)
    (s : ManagerState) (name : String) (servers : List MCPServerConfig) (w : Bool)
    (h : LedgerWF s.port_allocations) :
    LedgerWF ((startCustomerContainers env osEnv now s name servers w).2.1).port_allocations := by
  unfold startCustomerContainers
  split
  · next c heq =>
    by_cases hh : (c.touch now).allHealthy = true
    · simpa [hh] using h
    · simp only [hh, if_false, Bool.false_eq_true]
      exact startFresh_WF env osEnv now _ name servers w h
  · exact startFresh_WF env osEnv now s name servers w h

theorem stopCustomer_WF (env : DockerEnv) (s : ManagerState) (name : String)
    (h : LedgerWF s.port_allocations) :
    LedgerWF ((stopCustomerContainers env s name).1).port_allocations := by
  unfold stopCustomerContainers
  split
  · exact h
  · next c heq => exact stopAllFor_WF env c.containers s.port_allocations h

theorem stopEach_WF (env : DockerEnv) (names : List String) : ∀ s : ManagerState,
    LedgerWF s.port_allocations → LedgerWF ((stopEach env s names).1).port_allocations := by
  induction names with
  | nil => intro s h; simpa [stopEach] using h
  | cons n rest ih =>
    intro s h
    simp only [stopEach]
    exact ih _ (stopCustomer_WF env s n h)

theorem reachable_ledger_WF (s : ManagerState) (h : Reachable s) :
    LedgerWF s.port_allocations := by
  induction h with
  | base s h1 h2 => rw [h2]; exact ⟨List.nodup_nil, List.nodup_nil⟩
  | step s op _ ih =>
    cases op with
    | start env osEnv now name servers w => exact startCustomer_WF env osEnv now s name servers w ih
    | stopCustomer env name => exact stopCustomer_WF env s name ih
    | stopAll env => exact stopEach_WF env (dictKeys s.customers) s ih

theorem dictGet_inj {κ α : Type} [DecidableEq κ] (l : List (κ × α))
    (hv : (l.map (·.2)).Nodup) (n1 n2 : κ) (p : α)
    (h1 : dictGet l n1 = some p) (h2 : dictGet l n2 = some p) : n1 = n2 := by
  induction l with
  | nil => simp [dictGet] at h1
  | cons q rest ih =>
    obtain ⟨k, v⟩ := q
    simp only [List.map_cons, List.nodup_cons] at hv
    obtain ⟨hvn, hvr⟩ := hv
    by_cases e1 : k = n1 <;> by_cases e2 : k = n2
    · rw [← e1, ← e2]
    · simp only [dictGet, if_pos e1, if_neg e2, Option.some.injEq] at h1 h2
      exact absurd (h1 ▸ dictGet_mem_values rest n2 p h2) hvn
    · simp only [dictGet, if_neg e1, if_pos e2, Option.some.injEq] at h1 h2
      exact absurd (h2 ▸ dictGet_mem_values rest n1 p h1) hvn
    · simp only [dictGet, if_neg e1, if_neg e2] at h1 h2
      exact ih hvr h1 h2

/-- Claim C4 (confirmed).  Port ledger uniqueness and reuse: in every
reachable manager state no two container names hold the same host port;
and concretely three Grafana containers for t1, t2, t3 receive 3100,
3101, 3102, stopping t1 releases 3100, and t4 then receives 3100 (not
3103). -/
theorem port_uniqueness_reuse_C4 (s : ManagerState) (h : Reachable s) :
    (∀ n1 n2 p, dictGet s.port_allocations n1 = some p →
        dictGet s.port_allocations n2 = some p → n1 = n2)
    ∧ (dictGet ports3.port_allocations "sm3-mcp-grafana-t1" = some 3100
      ∧ dictGet ports3.port_allocations "sm3-mcp-grafana-t2" = some 3101
      ∧ dictGet ports3.port_allocations "sm3-mcp-grafana-t3" = some 3102
      ∧ dictGet ports4.port_allocations "sm3-mcp-grafana-t1" = none
      ∧ dictGet ports5.port_allocations "sm3-mcp-grafana-t4" = some 3100) :=
  ⟨fun n1 n2 p h1 h2 =>
    dictGet_inj s.port_allocations (reachable_ledger_WF s h).2 n1 n2 p h1 h2,
   by decide⟩

/-- Witness for C4 at the concrete reachable state ports5 (t1, t2, t3
started, t1 stopped, t4 started). -/
theorem port_uniqueness_reuse_C4_witness :
    (∀ n1 n2 p, dictGet ports5.port_allocations n1 = some p →
        dictGet ports5.port_allocations n2 = some p → n1 = n2)
    ∧ (dictGet ports3.port_allocations "sm3-mcp-grafana-t1" = some 3100
      ∧ dictGet ports3.port_allocations "sm3-mcp-grafana-t2" = some 3101
      ∧ dictGet ports3.port_allocations "sm3-mcp-grafana-t3" = some 3102
      ∧ dictGet ports4.port_allocations "sm3-mcp-grafana-t1" = none
      ∧ dictGet ports5.port_allocations "sm3-mcp-grafana-t4" = some 3100) :=
  port_uniqueness_reuse_C4 ports5
    (Reachable.step ports4 (MgrOp.start envHealthy osEnvEmpty 3 "t4" [gspec] true)
      (Reachable.step ports3 (MgrOp.stopCustomer envHealthy "t1")
        (Reachable.step ports2 (MgrOp.start envHealthy osEnvEmpty 2 "t3" [gspec] true)
          (Reachable.step ports1 (MgrOp.start envHealthy osEnvEmpty 1 "t2" [gspec] true)
            (Reachable.step initialState (MgrOp.start envHealthy osEnvEmpty 0 "t1" [gspec] true)
              (Reachable.base initialState rfl rfl))))))

/-- Claim C5 (confirmed).  Port allocation contract: _allocate_port is
idempotent for a name already holding a port; otherwise it scans a
window of 100 addresses from the type's base port, skips ports held in
the ledger, appends the first free one for the name leaving all other
entries unchanged, and raises the exhausted-port-range error when all
100 addresses are taken, leaving the ledger unchanged. -/
theorem allocate_port_contract_C5 (pr : MCPType → Nat × Nat) (t : MCPType)
    (name : String) (ledger : PortLedger) :
    (∀ p, dictGet ledger name = some p →
      allocatePort pr t name ledger = .ok (p, ledger))
    ∧ (∀ p l', dictGet ledger name = none →
        allocatePort pr t name ledger = .ok (p, l') →
        l' = ledger ++ [(name, p)]
        ∧ p ∉ ledger.map (·.2)
        ∧ (pr t).1 ≤ p ∧ p < (pr t).1 + 100
        ∧ ∀ q, (pr t).1 ≤ q → q < p → q ∈ ledger.map (·.2))
    ∧ (∀ m, allocatePort pr t name ledger = .error m →
        m = "No available ports for " ++ t.value
        ∧ dictGet ledger name = none
        ∧ ∀ o, o < 100 → ((pr t).1 + o) ∈ ledger.map (·.2)) := by
  refine ⟨?_, ?_, ?_⟩
  · intro p hp
    unfold allocatePort
    rw [hp]
  · intro p l' hn h
    unfold allocatePort at h
    rw [hn] at h
    simp only at h
    cases hs : scanPorts (ledger.map (·.2)) (pr t).1 100 with
    | none => rw [hs] at h; exact absurd h (by simp)
    | some q =>
      rw [hs] at h
      simp only [Except.ok.injEq, Prod.mk.injEq] at h
      obtain ⟨hqp, hl⟩ := h
      obtain ⟨h1, h2, h3, h4⟩ := scanPorts_some_spec _ 100 _ q hs
      rw [← hqp]
      exact ⟨hl.symm, h1, h2, h3, h4⟩
  · intro m h
    unfold allocatePort at h
    cases hg : dictGet ledger name with
    | some q => rw [hg] at h; exact absurd h (by simp)
    | none =>
      rw [hg] at h
      simp only at h
      cases hs : scanPorts (ledger.map (·.2)) (pr t).1 100 with
      | some q => rw [hs] at h; exact absurd h (by simp)
      | none =>
        rw [hs] at h
        injection h with h
        exact ⟨h.symm, rfl, scanPorts_none_spec _ 100 _ hs⟩

/-- Witness for C5: allocating for a fresh name over the ledger
[(other, 3100)] binds the next free grafana port 3101 at the end of the
ledger. -/
theorem allocate_port_contract_C5_witness :
    [("other", 3100), ("n", 3101)] = [("other", 3100)] ++ [("n", 3101)]
    ∧ 3101 ∉ ([("other", 3100)] : PortLedger).map (·.2)
    ∧ (defaultPortRanges MCPType.grafana).1 ≤ 3101
    ∧ 3101 < (defaultPortRanges MCPType.grafana).1 + 100
    ∧ ∀ q, (defaultPortRanges MCPType.grafana).1 ≤ q → q < 3101 →
        q ∈ ([("other", 3100)] : PortLedger).map (·.2) :=
  (allocate_port_contract_C5 defaultPortRanges MCPType.grafana "n" [("other", 3100)]).2.1
    3101 [("other", 3100), ("n", 3101)] (by decide) (by decide)

/-! Error containment lemmas for claim C6. -/

theorem startFresh_ok (env : DockerEnv) (osEnv : String → Option String) (now : Nat)
    (s : ManagerState) (name : String) (servers : List MCPServerConfig) (w : Bool)
    (cfgs : List ContainerConfig)
    (h : (buildConfigs osEnv s.images s.port_ranges s.port_allocations name servers).1
      = .ok cfgs) :
    ∃ c, (startFresh env osEnv now s name servers w).1 = .ok c := by
  unfold startFresh
  split
  · next m ledger1 heq =>
    rw [heq] at h
    exact absurd h (by simp)
  · next configs ledger1 heq =>
    exact ⟨_, rfl⟩

/-- Counterexample to claim C6 as stated: with the grafana port window
3100..3199 fully allocated, start_customer_containers raises the
port-exhaustion error to its caller instead of capturing it in the
sidecar's status, because _build_container_config runs outside the
per-sidecar error capture. -/
theorem start_error_containment_C6_cex :
    (startCustomerContainers envHealthy osEnvEmpty 0 exhaustedState "t" [gspec] true).1
      = .error "No available ports for grafana" := by decide

/-- Claim C6 (corrected).  Error containment: when every requested
sidecar's port allocation succeeds, start_customer_containers returns
normally, and every runtime error during a container start is captured
in that sidecar's status without aborting its siblings — concretely,
with the alertmanager run call raising, the call still returns a set
whose grafana member is HEALTHY while the alertmanager member is ERROR
carrying the message.  Port-range exhaustion, however, raises out of
the call (see the counterexample). -/
theorem start_error_containment_C6 :
    (∀ (env : DockerEnv) (osEnv : String → Option String) (now : Nat) (s : ManagerState)
        (name : String) (servers : List MCPServerConfig) (w : Bool)
        (cfgs : List ContainerConfig),
      (buildConfigs osEnv s.images s.port_ranges s.port_allocations name servers).1
          = .ok cfgs →
      ∃ c, (startCustomerContainers env osEnv now s name servers w).1 = .ok c)
    ∧ (siblingRes.1 = .ok siblingCust
      ∧ (dictGet siblingCust.containers MCPType.grafana).map (·.state)
          = some ContainerState.healthy
      ∧ (dictGet siblingCust.containers MCPType.alertmanager).map (·.state)
          = some ContainerState.error
      ∧ (dictGet siblingCust.containers MCPType.alertmanager).map (·.error_message)
          = some (some "image pull access denied")
      ∧ siblingCust.allHealthy = false) := by
  constructor
  · intro env osEnv now s name servers w cfgs h
    unfold startCustomerContainers
    split
    · next c heq =>
      by_cases hh : (c.touch now).allHealthy = true
      · exact ⟨c.touch now, by simp [hh]⟩
      · simp only [hh, if_false, Bool.false_eq_true]
        exact startFresh_ok env osEnv now _ name servers w cfgs h
    · exact startFresh_ok env osEnv now s name servers w cfgs h
  · decide

/-- Witness for C6: a concrete start whose allocations all succeed
returns normally. -/
theorem start_error_containment_C6_witness :
    ∃ c, (startCustomerContainers envHealthy osEnvEmpty 0 initialState "t" [gspec] true).1
      = .ok c :=
  start_error_containment_C6.1 envHealthy osEnvEmpty 0 initialState "t" [gspec] true
    [cfgT] (by decide)

/-! Health prober lemmas for claim C7. -/

theorem healthLoop_some (probe : Nat → ProbeResult) (i : Nat) :
    ∀ (a fuel : Nat), i < fuel →
    (∀ j, j < i → probeHealthy (probe (a + j)) = false) →
    probeHealthy (probe (a + i)) = true →
    healthLoop probe a fuel = some (a + i) := by
  induction i with
  | zero =>
    intro a fuel hf hj hs
    cases fuel with
    | zero => omega
    | succ n =>
      rw [Nat.add_zero] at hs
      simp [healthLoop, hs]
  | succ i ih =>
    intro a fuel hf hj hs
    cases fuel with
    | zero => omega
    | succ n =>
      have h0 : probeHealthy (probe a) = false := by simpa using hj 0 (by omega)
      simp only [healthLoop, h0, Bool.false_eq_true, if_false]
      have hrec := ih (a + 1) n (by omega)
        (fun j hji => by
          have := hj (j + 1) (by omega)
          rwa [show a + (j + 1) = a + 1 + j by omega] at this)
        (by rwa [show a + (i + 1) = a + 1 + i by omega] at hs)
      rw [hrec]
      congr 1
      omega

theorem healthLoop_none (probe : Nat → ProbeResult) :
    ∀ (fuel a : Nat), (∀ j, j < fuel → probeHealthy (probe (a + j)) = false) →
    healthLoop probe a fuel = none := by
  intro fuel
  induction fuel with
  | zero => intro a _; rfl
  | succ n ih =>
    intro a h
    have h0 : probeHealthy (probe a) = false := by simpa using h 0 (by omega)
    simp only [healthLoop, h0, Bool.false_eq_true, if_false]
    exact ih (a + 1) (fun j hj => by
      have := h (j + 1) (by omega)
      rwa [show a + (j + 1) = a + 1 + j by omega] at this)

/-- Counterexample to claim C7 as stated: a health endpoint answering
204 No Content — a successful status — on every poll still times out
into UNHEALTHY, because the code accepts exactly the codes 200 and 405,
not the whole successful class. -/
theorem wait_healthy_C7_cex :
    (waitForHealthy env204 30 none stRunning).1.state = ContainerState.unhealthy
    ∧ env204.probe stRunning.config.url 0 = .status 204
    ∧ (waitForHealthy env204 30 none stRunning).1.state ≠ ContainerState.healthy := by
  decide

/-- Claim C7 (corrected).  Health prober contract: a status in ERROR is
passed through untouched; otherwise polling continues until a response
with code exactly 200 or 405 (not any successful status) arrives, in
which case the state becomes HEALTHY; transport errors and other codes
are swallowed and polling continues; if no poll succeeds before the
timeout admits no further poll, the state becomes UNHEALTHY with an
error message naming the timeout. -/
theorem wait_healthy_C7 (env : DockerEnv) (ht : Nat) (targ : Option Nat)
    (status : ContainerStatus) :
    (status.state = ContainerState.error →
      waitForHealthy env ht targ status = (status, []))
    ∧ (∀ i, status.state ≠ ContainerState.error → i < env.healthPolls →
        (∀ j, j < i → probeHealthy (env.probe status.config.url j) = false) →
        probeHealthy (env.probe status.config.url i) = true →
        waitForHealthy env ht targ status
          = ({ status with state := .healthy }, probeEvents status.config.url (i + 1)))
    ∧ (status.state ≠ ContainerState.error →
        (∀ j, j < env.healthPolls → probeHealthy (env.probe status.config.url j) = false) →
        waitForHealthy env ht targ status
          = ({ status with state := .unhealthy, error_message := some (timeoutMessage (effectiveTimeout ht targ)) },
             probeEvents status.config.url env.healthPolls)) := by
  refine ⟨?_, ?_, ?_⟩
  · intro h
    unfold waitForHealthy
    rw [if_pos h]
  · intro i hne hi hfirst hsucc
    unfold waitForHealthy
    rw [if_neg hne]
    have hl := healthLoop_some (env.probe status.config.url) i 0 env.healthPolls
      (by omega) (fun j hj => by simpa using hfirst j hj) (by simpa using hsucc)
    rw [Nat.zero_add] at hl
    simp only [hl]
  · intro hne hall
    unfold waitForHealthy
    rw [if_neg hne]
    have hl := healthLoop_none (env.probe status.config.url) env.healthPolls 0
      (fun j hj => by simpa using hall j hj)
    simp only [hl]

/-- Witness for C7: concretely, a transport error then a 500 then a 405
end in HEALTHY after exactly three polls. -/
theorem wait_healthy_C7_witness :
    waitForHealthy envMixed 30 none stRunning
      = ({ stRunning with state := .healthy }, probeEvents stRunning.config.url 3) :=
  (wait_healthy_C7 envMixed 30 none stRunning).2.1 2 (by decide) (by decide)
    (by decide) (by decide)

/-- Counterexample to claim C8 as stated: stopping a status whose
container is gone from the runtime leaves the status in state NOT_FOUND,
not STOPPED (though indeed not ERROR). -/
theorem defensive_stop_C8_cex :
    (stopContainer envGone [] stRunning).1.state = ContainerState.not_found
    ∧ (stopContainer envGone [] stRunning).1.state ≠ ContainerState.stopped
    ∧ (stopContainer envGone [] stRunning).1.state ≠ ContainerState.error := by
  decide

/-- Claim C8 (corrected).  Defensive stop: a status without a container
id is returned untouched; a NotFound from the runtime lookup leaves
state NOT_FOUND (not ERROR, but also not STOPPED as claimed); any other
stop or remove failure transitions to ERROR with the causing message;
and a fully successful stop ends in STOPPED with the port released. -/
theorem defensive_stop_C8 :
    (∀ (env : DockerEnv) (l : PortLedger) (status : ContainerStatus),
      status.container_id = none → stopContainer env l status = (status, l, []))
    ∧ (∀ (env : DockerEnv) (l : PortLedger) (status : ContainerStatus) (id : String)
        (m : String), status.container_id = some id → env.getById id = .notFound m →
      (stopContainer env l status).1.state = ContainerState.not_found
      ∧ (stopContainer env l status).1.state ≠ ContainerState.error
      ∧ (stopContainer env l status).2.1 = l)
    ∧ (∀ (env : DockerEnv) (l : PortLedger) (status : ContainerStatus) (id : String)
        (m : String), status.container_id = some id → env.getById id = .ok () →
        env.stop id = .err m →
      (stopContainer env l status).1.state = ContainerState.error
      ∧ (stopContainer env l status).1.error_message = some m
      ∧ (stopContainer env l status).2.1 = l)
    ∧ (∀ (env : DockerEnv) (l : PortLedger) (status : ContainerStatus) (id : String)
        (m : String), status.container_id = some id → env.getById id = .ok () →
        env.stop id = .ok () → env.removeById id = .err m →
      (stopContainer env l status).1.state = ContainerState.error
      ∧ (stopContainer env l status).1.error_message = some m
      ∧ (stopContainer env l status).2.1 = l)
    ∧ (∀ (env : DockerEnv) (l : PortLedger) (status : ContainerStatus) (id : String),
        status.container_id = some id → env.getById id = .ok () →
        env.stop id = .ok () → env.removeById id = .ok () →
      (stopContainer env l status).1.state = ContainerState.stopped
      ∧ (stopContainer env l status).2.1 = releasePort status.config.container_name l) := by
  refine ⟨?_, ?_, ?_, ?_, ?_⟩
  · intro env l status h
    simp [stopContainer, h]
  · intro env l status id m h1 h2
    simp [stopContainer, h1, h2]
  · intro env l status id m h1 h2 h3
    simp [stopContainer, h1, h2, h3, errorStatus]
  · intro env l status id m h1 h2 h3 h4
    simp [stopContainer, h1, h2, h3, h4, errorStatus]
  · intro env l status id h1 h2 h3 h4
    simp [stopContainer, h1, h2, h3, h4]

/-- Witness for C8: the NotFound conjunct at the concrete gone-container
scenario. -/
theorem defensive_stop_C8_witness :
    (stopContainer envGone [] stRunning).1.state = ContainerState.not_found
    ∧ (stopContainer envGone [] stRunning).1.state ≠ ContainerState.error
    ∧ (stopContainer envGone [] stRunning).2.1 = [] :=
  defensive_stop_C8.2.1 envGone [] stRunning "cid0" "404 not found" (by decide) (by decide)

/-! Orphan cleanup lemmas for claim C9. -/

theorem cleanupLoop_spec (env : DockerEnv) (managed : List String)
    (lst : List (String × String)) : ∀ n : Nat,
    (∀ c ∈ lst, c.1 ∉ managed → env.removeForce c.1 = .ok ()) →
    cleanupLoop env managed lst n
      = (n + (lst.filter (fun c => decide (c.1 ∉ managed))).length,
         (lst.filter (fun c => decide (c.1 ∉ managed))).map
           (fun c => Event.removeForce c.1)) := by
  induction lst with
  | nil => intro n _; simp [cleanupLoop]
  | cons c rest ih =>
    intro n h
    obtain ⟨id, nm⟩ := c
    by_cases hm : id ∈ managed
    · simp only [cleanupLoop, if_pos hm]
      rw [ih n (fun c hc hcm => h c (List.mem_cons_of_mem _ hc) hcm)]
      simp [hm]
    · have hr : env.removeForce id = .ok () := h (id, nm) (List.mem_cons_self _ _) hm
      simp only [cleanupLoop, if_neg hm, hr]
      rw [ih (n + 1) (fun c hc hcm => h c (List.mem_cons_of_mem _ hc) hcm)]
      rw [Prod.ext_iff]
      constructor
      · simp [hm]
        omega
      · simp [hm]

/-- Claim C9 (confirmed).  Orphan cleanup: when the runtime listing
succeeds and the removals succeed, cleanup_orphaned_containers
force-removes exactly the listed containers whose id is not tracked by
any resident tenant and returns their count, touching no tracked
container; when the listing raises, the pass aborts with zero removed
and no removal is attempted. -/
theorem orphan_cleanup_C9 :
    (∀ (env : DockerEnv) (s : ManagerState) (lst : List (String × String)),
      env.listManaged = .ok lst →
      (∀ c ∈ lst, c.1 ∉ managedIds s → env.removeForce c.1 = .ok ()) →
      cleanupOrphanedContainers env s
        = ((lst.filter (fun c => decide (c.1 ∉ managedIds s))).length,
           Event.listManaged :: (lst.filter (fun c => decide (c.1 ∉ managedIds s))).map
             (fun c => Event.removeForce c.1)))
    ∧ (∀ (env : DockerEnv) (s : ManagerState) (m : String),
      env.listManaged = .err m →
      cleanupOrphanedContainers env s = (0, [Event.listManaged])) := by
  constructor
  · intro env s lst hl hr
    unfold cleanupOrphanedContainers
    rw [hl]
    simp only [cleanupLoop_spec env (managedIds s) lst 0 hr, Nat.zero_add]
  · intro env s m hl
    unfold cleanupOrphanedContainers
    rw [hl]

/-- Witness for C9: three listed managed containers of which two are
tracked by the ports2 state; exactly the orphan is removed and the
count is 1. -/
theorem orphan_cleanup_C9_witness :
    cleanupOrphanedContainers envList3 ports2
      = (1, [Event.listManaged, Event.removeForce "orphan-1"]) := by
  rw [orphan_cleanup_C9.1 envList3 ports2
    [("id-sm3-mcp-grafana-t1", "sm3-mcp-grafana-t1"),
     ("orphan-1", "sm3-mcp-grafana-old"),
     ("id-sm3-mcp-grafana-t2", "sm3-mcp-grafana-t2")] (by decide) (by decide)]
  decide

/-! Unknown-type skipping lemmas for claim C10. -/

theorem buildConfigs_skip (osEnv : String → Option String) (images : MCPType → String)
    (pr : MCPType → Nat × Nat) (name : String) (bad : MCPServerConfig)
    (h : MCPType.ofString? (bad.type_str.getD "") = none)
    (pre post : List MCPServerConfig) : ∀ ledger : PortLedger,
    buildConfigs osEnv images pr ledger name (pre ++ bad :: post)
      = buildConfigs osEnv images pr ledger name (pre ++ post) := by
  induction pre with
  | nil =>
    intro ledger
    simp only [List.nil_append, buildConfigs, h]
  | cons sc pre' ih =>
    intro ledger
    simp only [List.cons_append, buildConfigs]
    cases hsc : MCPType.ofString? (sc.type_str.getD "") with
    | none => exact ih ledger
    | some t =>
      dsimp only
      cases hb : buildContainerConfig osEnv images pr ledger name t sc with
      | error m => rfl
      | ok pair =>
        obtain ⟨cfg, ledger'⟩ := pair
        dsimp only
        have ih' := ih ledger'
        simp only [List.append_eq] at ih' ⊢
        rw [ih']

theorem startFresh_skip (env : DockerEnv) (osEnv : String → Option String) (now : Nat)
    (s : ManagerState) (name : String) (bad : MCPServerConfig)
    (h : MCPType.ofString? (bad.type_str.getD "") = none)
    (pre post : List MCPServerConfig) (w : Bool) :
    startFresh env osEnv now s name (pre ++ bad :: post) w
      = startFresh env osEnv now s name (pre ++ post) w := by
  unfold startFresh
  rw [buildConfigs_skip osEnv s.images s.port_ranges name bad h pre post s.port_allocations]

/-- Claim C10 (confirmed).  Unknown sidecar types are silently skipped:
a request entry whose type string names no recognised MCP type
contributes nothing at all — start_customer_containers behaves exactly
as if the entry were absent (no container start, no port allocation, no
error, and no entry for it in the returned set). -/
theorem unknown_type_skipped_C10 (env : DockerEnv) (osEnv : String → Option String)
    (now : Nat) (s : ManagerState) (name : String) (bad : MCPServerConfig)
    (pre post : List MCPServerConfig) (w : Bool)
    (h : MCPType.ofString? (bad.type_str.getD "") = none) :
    startCustomerContainers env osEnv now s name (pre ++ bad :: post) w
      = startCustomerContainers env osEnv now s name (pre ++ post) w := by
  unfold startCustomerContainers
  cases hd : dictGet s.customers name with
  | none => exact startFresh_skip env osEnv now s name bad h pre post w
  | some c =>
    by_cases hh : (c.touch now).allHealthy = true
    · simp [hh]
    · simp only [hh, if_false, Bool.false_eq_true]
      exact startFresh_skip env osEnv now _ name bad h pre post w

/-- Witness for C10: a request list led by an unrecognised postgres
entry behaves exactly like the list without it. -/
theorem unknown_type_skipped_C10_witness :
    startCustomerContainers envHealthy osEnvEmpty 0 initialState "t" [badspec, gspec] true
      = startCustomerContainers envHealthy osEnvEmpty 0 initialState "t" [gspec] true :=
  unknown_type_skipped_C10 envHealthy osEnvEmpty 0 initialState "t" badspec [] [gspec]
    true (by decide)

end SM3
